import Mathlib

/--
Shallow embedding of the vcenter-mcp repository (src/main): the configuration
resolver (config/config_manager.py), the data models (models/vcenter_config.py),
the API client (services/vcenter_service.py), the query layer
(controllers/vcenter_controller.py) and the presentation formatter
(views/mcp_tools.py). The remote vCenter REST API is modelled as a value of
type VCenterApi giving the response of each endpoint; every service call is
also recorded in a call trace so that frame properties about which remote
calls are issued can be stated.
-/
def vcenterMcpEmbedding : String := "src/main"

/-- Python string truthiness of an optional string value: None and the empty
string are falsy, every other string is truthy. Used for the
all([host, username, password]) checks and the if cluster_id: filter guards. -/
def pyTruthyStr : Option String → Bool
  | none => false
  | some s => s != ""

/-- Python str.lower, as applied to service names and labels and to the
VCENTER_VERIFY_SSL value (ASCII case folding). -/
def pyLower (s : String) : String := String.mk (s.toList.map Char.toLower)

/-- Python substring containment (the in operator on str) over char lists:
true when the needle occurs contiguously in the haystack. -/
def listContainsSub (needle : List Char) : List Char → Bool
  | [] => needle.isEmpty
  | c :: rest => needle.isPrefixOf (c :: rest) || listContainsSub needle rest

/-- Python needle in hay for strings. -/
def pyContains (hay needle : String) : Bool := listContainsSub needle.toList hay.toList

/-- Whitespace characters stripped by Python int(str) around the digits. -/
def isPySpace (c : Char) : Bool :=
  c = ' ' || c = '\t' || c = '\n' || c = '\r' || c = '\x0b' || c = '\x0c'

/-- Digit run of a Python decimal integer literal: at least one digit, single
underscores allowed between digits; accumulates the value. -/
def pyDigitsAux : Nat → List Char → Option Nat
  | acc, [] => some acc
  | acc, '_' :: c :: rest =>
      if c.isDigit then pyDigitsAux (acc * 10 + (c.toNat - 48)) rest else none
  | _, ['_'] => none
  | acc, c :: rest =>
      if c.isDigit then pyDigitsAux (acc * 10 + (c.toNat - 48)) rest else none

/-- Parse a nonempty digit run (see pyDigitsAux). -/
def pyDigits : List Char → Option Nat
  | c :: rest => if c.isDigit then pyDigitsAux (c.toNat - 48) rest else none
  | [] => none

/-- Python int(str): optional surrounding whitespace, optional sign, then a
digit run; returns none exactly where CPython raises ValueError. -/
def pyInt (s : String) : Option Int :=
  let cs := ((s.toList.dropWhile isPySpace).reverse.dropWhile isPySpace).reverse
  match cs with
  | '+' :: rest => (pyDigits rest).map (fun n => (n : Int))
  | '-' :: rest => (pyDigits rest).map (fun n => -(n : Int))
  | _ => (pyDigits cs).map (fun n => (n : Int))

/-- Python s.rstrip with a slash argument: remove every trailing slash,
as in VCenterService.__init__ (vcenter_service.py line 31). -/
def pyRstripSlash (s : String) : String :=
  String.mk ((s.toList.reverse.dropWhile (fun c => c == '/')).reverse)

/-- Dataclass VCenterConfig (models/vcenter_config.py lines 11-18). The
timeout is a Python int, hence an unbounded Int here. -/
structure VCenterConfig where
  host : String
  username : String
  password : String
  verify_ssl : Bool
  timeout : Int
  deriving Repr, DecidableEq

/-- Dataclass VCenterCredentials (models/vcenter_config.py lines 21-26). -/
structure VCenterCredentials where
  host : String
  username : String
  password : String
  deriving Repr, DecidableEq

/-- Dataclass Cluster (models/vcenter_config.py lines 29-34). The
resource_pools field is Optional[list] and is never populated by any code
path in the repository. -/
structure Cluster where
  cluster_id : String
  name : String
  resource_pools : Option (List String)
  deriving Repr, DecidableEq

/-- Dataclass ResourcePool (models/vcenter_config.py lines 37-42). -/
structure ResourcePool where
  resource_pool_id : String
  name : String
  cluster_id : Option String
  deriving Repr, DecidableEq

/-- Dataclass VirtualMachine (models/vcenter_config.py lines 45-52). -/
structure VirtualMachine where
  vm_id : String
  name : String
  power_state : String
  cluster_id : Option String
  resource_pool_id : Option String
  deriving Repr, DecidableEq

/-- Credentials object nested in a Cloud Foundry service descriptor; the
Python code reads its host, username and password keys with dict.get, so
each field is optional (config_manager.py lines 94-97). -/
structure ServiceCredentials where
  host : Option String
  username : Option String
  password : Option String
  deriving Repr, DecidableEq

/-- One service descriptor inside a VCAP_SERVICES bucket: name, label and a
nested credentials mapping, all read with dict.get (config_manager.py
lines 92-101 and 122-129). -/
structure ServiceDesc where
  name : Option String
  label : Option String
  credentials : Option ServiceCredentials
  deriving Repr, DecidableEq

/-- The VCAP_SERVICES environment variable after json.loads: either malformed
JSON (json.loads raises, caught and treated as absent, config_manager.py
lines 103-106) or a mapping from service-type name to a list of service
descriptors, modelled in iteration order. -/
inductive VcapServicesValue where
  | malformed : VcapServicesValue
  | parsed : List (String × List ServiceDesc) → VcapServicesValue

/-- The process environment as far as the configuration resolver reads it:
the five VCENTER_* variables and VCAP_SERVICES, each possibly unset. -/
structure Env where
  vcenter_host : Option String
  vcenter_username : Option String
  vcenter_password : Option String
  vcenter_verify_ssl : Option String
  vcenter_timeout : Option String
  vcap_services : Option VcapServicesValue

/-- The default for service.get('credentials', \x7b\x7d): all keys absent. -/
def emptyServiceCredentials : ServiceCredentials :=
  { host := none, username := none, password := none }

/-- The fixed keyword list of ConfigManager._is_vcenter_service
(config_manager.py line 127). -/
def vcenter_keywords : List String := ["vcenter", "vmware", "esxi"]

/-- ConfigManager._is_vcenter_service (config_manager.py lines 122-129):
lowercase the descriptor name and label (missing keys default to the empty
string) and test whether any keyword occurs in either. -/
def ConfigManager.is_vcenter_service (service : ServiceDesc) : Bool :=
  let service_name := pyLower (service.name.getD "")
  let service_label := pyLower (service.label.getD "")
  vcenter_keywords.any (fun keyword =>
    pyContains service_name keyword || pyContains service_label keyword)

/-- Inner loop of ConfigManager._get_credentials_from_service_binding
(config_manager.py lines 92-101): scan one bucket of descriptors; a
keyword-matching descriptor is selected only when host, username and
password are all truthy (present and non-empty), otherwise scanning
continues. -/
def ConfigManager.scan_service_list : List ServiceDesc → Option VCenterCredentials
  | [] => none
  | service :: rest =>
    if ConfigManager.is_vcenter_service service then
      let credentials := service.credentials.getD emptyServiceCredentials
      if pyTruthyStr credentials.host && pyTruthyStr credentials.username &&
          pyTruthyStr credentials.password then
        some { host := credentials.host.getD "", username := credentials.username.getD "",
               password := credentials.password.getD "" }
      else ConfigManager.scan_service_list rest
    else ConfigManager.scan_service_list rest

/-- Outer loop of ConfigManager._get_credentials_from_service_binding
(config_manager.py line 91): iterate the service-type buckets in order,
returning the first credentials found by the inner scan. -/
def ConfigManager.scan_services : List (String × List ServiceDesc) → Option VCenterCredentials
  | [] => none
  | (_, service_list) :: rest =>
    match ConfigManager.scan_service_list service_list with
    | some credentials => some credentials
    | none => ConfigManager.scan_services rest

/-- ConfigManager._get_credentials_from_service_binding (config_manager.py
lines 81-108): absent or falsy VCAP_SERVICES gives None; malformed JSON is
caught and gives None; otherwise the double scan runs. -/
def ConfigManager.get_credentials_from_service_binding (env : Env) : Option VCenterCredentials :=
  match env.vcap_services with
  | none => none
  | some .malformed => none
  | some (.parsed services) => ConfigManager.scan_services services

/-- ConfigManager._get_credentials_from_env (config_manager.py lines
110-120): all three variables must be truthy (set and non-empty). -/
def ConfigManager.get_credentials_from_env (env : Env) : Option VCenterCredentials :=
  if pyTruthyStr env.vcenter_host && pyTruthyStr env.vcenter_username &&
      pyTruthyStr env.vcenter_password then
    some { host := env.vcenter_host.getD "", username := env.vcenter_username.getD "",
           password := env.vcenter_password.getD "" }
  else none

/-- ConfigManager.get_vcenter_credentials (config_manager.py lines 26-51):
environment variables first, then service binding, else ValueError
(modelled as Except.error). -/
def ConfigManager.get_vcenter_credentials (env : Env) : Except String VCenterCredentials :=
  match ConfigManager.get_credentials_from_env env with
  | some credentials => .ok credentials
  | none =>
    match ConfigManager.get_credentials_from_service_binding env with
    | some credentials => .ok credentials
    | none => .error "vCenter credentials not found in environment variables or service binding"

/-- ConfigManager.get_vcenter_config (config_manager.py lines 53-79):
resolve credentials, then VCENTER_VERIFY_SSL (default true, lowercased,
compared to the string false) and VCENTER_TIMEOUT (default 30, int() with
ValueError falling back to 30). -/
def ConfigManager.get_vcenter_config (env : Env) : Except String VCenterConfig :=
  match ConfigManager.get_vcenter_credentials env with
  | .error e => .error e
  | .ok credentials =>
    let verify_ssl_str := pyLower (env.vcenter_verify_ssl.getD "true")
    let verify_ssl := verify_ssl_str != "false"
    let timeout_str := env.vcenter_timeout.getD "30"
    let timeout := (pyInt timeout_str).getD 30
    .ok { host := credentials.host, username := credentials.username,
          password := credentials.password, verify_ssl := verify_ssl, timeout := timeout }

/-- A JSON envelope returned by the vCenter REST API; response.get("value", [])
defaults to the empty list when the key is absent (vcenter_service.py
lines 99, 122, 154). -/
structure RestResponse (α : Type) where
  value : Option α

/-- Raw cluster record as returned inside the value envelope; fields are read
with dict.get so each is optional (vcenter_controller.py lines 44-45). -/
structure RawCluster where
  cluster : Option String
  name : Option String
  deriving Repr, DecidableEq

/-- Raw resource-pool record (vcenter_controller.py lines 92-93, 116-119). -/
structure RawResourcePool where
  resource_pool : Option String
  name : Option String
  deriving Repr, DecidableEq

/-- Raw virtual-machine record (vcenter_controller.py lines 144-146). -/
structure RawVM where
  vm : Option String
  name : Option String
  power_state : Option String
  deriving Repr, DecidableEq

/-- One outbound HTTP GET issued by the service layer, identified by its
endpoint and the query-string filters actually appended (vcenter_service.py
lines 98, 117-119, 142-151). -/
inductive ApiCall where
  | clusters : ApiCall
  | resource_pools : Option String → ApiCall
  | vms : Option String → Option String → ApiCall
  deriving Repr, DecidableEq

/-- The remote vCenter REST API, modelled as the outcome of each endpoint:
either a JSON envelope or a request failure (network error, non-2xx status,
malformed body), which _make_request turns into a raised exception
(vcenter_service.py lines 61-88). Filter arguments are the query parameters
present in the request URL. -/
structure VCenterApi where
  cluster_response : Except String (RestResponse (List RawCluster))
  resource_pool_response : Option String → Except String (RestResponse (List RawResourcePool))
  vm_response : Option String → Option String → Except String (RestResponse (List RawVM))

/-- VCenterService.get_clusters (vcenter_service.py lines 90-104): GET
vcenter/cluster, extract value (default []), and catch any request failure
into the empty list. Also returns the list of remote calls issued. -/
def VCenterService.get_clusters (api : VCenterApi) : List RawCluster × List ApiCall :=
  match api.cluster_response with
  | .ok response => (response.value.getD [], [ApiCall.clusters])
  | .error _ => ([], [ApiCall.clusters])

/-- VCenterService.get_resource_pools (vcenter_service.py lines 106-127): GET
vcenter/resource-pool with a clusters= filter appended only when cluster_id
is truthy; failures are caught into the empty list. -/
def VCenterService.get_resource_pools (api : VCenterApi) (cluster_id : Option String) :
    List RawResourcePool × List ApiCall :=
  let cluster_filter := if pyTruthyStr cluster_id then cluster_id else none
  match api.resource_pool_response cluster_filter with
  | .ok response => (response.value.getD [], [ApiCall.resource_pools cluster_filter])
  | .error _ => ([], [ApiCall.resource_pools cluster_filter])

/-- VCenterService.get_virtual_machines (vcenter_service.py lines 129-159):
GET vcenter/vm with clusters= and resource_pools= filters appended only when
the corresponding argument is truthy; failures are caught into the empty
list. -/
def VCenterService.get_virtual_machines (api : VCenterApi)
    (cluster_id resource_pool_id : Option String) : List RawVM × List ApiCall :=
  let cluster_filter := if pyTruthyStr cluster_id then cluster_id else none
  let pool_filter := if pyTruthyStr resource_pool_id then resource_pool_id else none
  match api.vm_response cluster_filter pool_filter with
  | .ok response => (response.value.getD [], [ApiCall.vms cluster_filter pool_filter])
  | .error _ => ([], [ApiCall.vms cluster_filter pool_filter])

/-- VCenterService.test_connection (vcenter_service.py lines 161-174): call
get_clusters and return True; return False only if get_clusters raises.
Since get_clusters catches every exception internally and returns a list,
the except branch is unreachable and the function is constantly True. -/
def VCenterService.test_connection (api : VCenterApi) : Bool :=
  let _ := VCenterService.get_clusters api
  true

/-- VCenterController.get_clusters (vcenter_controller.py lines 31-53): map
each raw record to a Cluster, defaulting missing cluster and name fields to
the string Unknown. The surrounding try/except is dead in this model because
the service layer never raises. -/
def VCenterController.get_clusters (api : VCenterApi) : List Cluster × List ApiCall :=
  let fetched := VCenterService.get_clusters api
  (fetched.1.map (fun raw =>
    { cluster_id := raw.cluster.getD "Unknown", name := raw.name.getD "Unknown",
      resource_pools := none }), fetched.2)

/-- VCenterController.get_cluster_by_name (vcenter_controller.py lines 55-69):
linear scan of the mapped cluster list for the first cluster whose name
equals the query; None when there is no match. -/
def VCenterController.get_cluster_by_name (api : VCenterApi) (cluster_name : String) :
    Option Cluster × List ApiCall :=
  let fetched := VCenterController.get_clusters api
  (fetched.1.find? (fun cluster => cluster.name == cluster_name), fetched.2)

/-- VCenterController.get_resource_pool_by_name (vcenter_controller.py lines
104-121): scan the unfiltered raw resource-pool listing comparing each raw
name field (which may be absent) with the query; on a match build a
ResourcePool whose cluster_id is left unset. -/
def VCenterController.get_resource_pool_by_name (api : VCenterApi)
    (resource_pool_name : String) : Option ResourcePool × List ApiCall :=
  let fetched := VCenterService.get_resource_pools api none
  match fetched.1.find? (fun raw => raw.name == some resource_pool_name) with
  | some raw =>
      (some { resource_pool_id := raw.resource_pool.getD "Unknown",
              name := raw.name.getD "Unknown", cluster_id := none }, fetched.2)
  | none => (none, fetched.2)

/-- VCenterController.get_vms_in_resource_pool (vcenter_controller.py lines
157-189): resolve the pool by name; when not found return the empty list
(issuing no further call); otherwise fetch VMs filtered by the pool id and
map them, setting resource_pool_id but never cluster_id. -/
def VCenterController.get_vms_in_resource_pool (api : VCenterApi)
    (resource_pool_name : String) : List VirtualMachine × List ApiCall :=
  let resolved := VCenterController.get_resource_pool_by_name api resource_pool_name
  match resolved.1 with
  | none => ([], resolved.2)
  | some resource_pool =>
      let fetched :=
        VCenterService.get_virtual_machines api none (some resource_pool.resource_pool_id)
      (fetched.1.map (fun raw =>
        { vm_id := raw.vm.getD "Unknown", name := raw.name.getD "Unknown",
          power_state := raw.power_state.getD "Unknown", cluster_id := none,
          resource_pool_id := some resource_pool.resource_pool_id }), resolved.2 ++ fetched.2)

/-- The dictionary returned by VCenterController.get_vcenter_status; optional
fields model keys absent from the Failed and Connected variants. -/
structure StatusDict where
  connection_status : String
  host : String
  error : Option String
  clusters_count : Option Nat
  resource_pools_count : Option Nat
  vms_count : Option Nat
  deriving Repr, DecidableEq

/-- VCenterController.get_vcenter_status (vcenter_controller.py lines
191-225): if test_connection is false return the Failed dictionary with host
and error only; otherwise gather the cluster, resource-pool and VM listings
and return the Connected dictionary with the three counts. The outer
try/except Error branch is dead in this model because nothing below it
raises. -/
def VCenterController.get_vcenter_status (config : VCenterConfig) (api : VCenterApi) :
    StatusDict :=
  if !(VCenterService.test_connection api) then
    { connection_status := "Failed", host := config.host,
      error := some "Cannot connect to vCenter",
      clusters_count := none, resource_pools_count := none, vms_count := none }
  else
    let clusters := (VCenterController.get_clusters api).1
    let raw_resource_pools := (VCenterService.get_resource_pools api none).1
    let raw_vms := (VCenterService.get_virtual_machines api none none).1
    { connection_status := "Connected", host := config.host, error := none,
      clusters_count := some clusters.length,
      resource_pools_count := some raw_resource_pools.length,
      vms_count := some raw_vms.length }

/-- Request host of the API client: VCenterService.__init__ stores
config.host.rstrip of the slash into self.host (vcenter_service.py line 31);
all request URLs are built from it. -/
def VCenterService.host (config : VCenterConfig) : String := pyRstripSlash config.host

/-- MCPToolsView.format_cluster_list (mcp_tools.py lines 128-137): the empty
list gives the literal string No clusters found; otherwise a header line then
one line per cluster. -/
def MCPToolsView.format_cluster_list (clusters : List Cluster) : String :=
  if clusters.isEmpty then "No clusters found"
  else clusters.foldl (fun result cluster =>
    result ++ "- " ++ cluster.name ++ " (ID: " ++ cluster.cluster_id ++ ")\n")
    "Clusters in vCenter:\n"

/-- Body of the list_clusters MCP tool (mcp_tools.py lines 39-53), which
formats inline rather than calling format_cluster_list: the empty list gives
No clusters found in vCenter. -/
def MCPToolsView.list_clusters_tool (api : VCenterApi) : String :=
  let clusters := (VCenterController.get_clusters api).1
  if clusters.isEmpty then "No clusters found in vCenter"
  else clusters.foldl (fun result cluster =>
    result ++ "- " ++ cluster.name ++ " (ID: " ++ cluster.cluster_id ++ ")\n")
    "Clusters in vCenter:\n"

/-- A remote API where every endpoint fails (network error or non-2xx, here
an HTTP 500 on each request): the situation of a vCenter that is down. -/
def failingApi : VCenterApi :=
  { cluster_response := .error "500 Internal Server Error",
    resource_pool_response := fun _ => .error "500 Internal Server Error",
    vm_response := fun _ _ => .error "500 Internal Server Error" }

/-- A remote API where every endpoint succeeds with an empty inventory. -/
def emptyApi : VCenterApi :=
  { cluster_response := .ok { value := some [] },
    resource_pool_response := fun _ => .ok { value := some [] },
    vm_response := fun _ _ => .ok { value := some [] } }

/-- A concrete connection configuration used to evaluate status snapshots. -/
def exampleConfig : VCenterConfig :=
  { host := "https://vc.example.com", username := "admin", password := "secret",
    verify_ssl := true, timeout := 30 }

/-- C1: evaluation of the code at a remote cluster-endpoint failure. The
cluster listing does return the empty list, but the connectivity test reports
true (indeed it reports true for every remote API), and the status snapshot
is the Connected one with zero counts rather than the Failed one: the
service-level get_clusters swallows the failure before test_connection could
observe it, so the Failed branch of get_vcenter_status is unreachable. -/
theorem c1_connectivity_divergence :
    (VCenterController.get_clusters failingApi).1 = [] ∧
    VCenterService.test_connection failingApi = true ∧
    (∀ api : VCenterApi, VCenterService.test_connection api = true) ∧
    VCenterController.get_vcenter_status exampleConfig failingApi =
      { connection_status := "Connected", host := "https://vc.example.com", error := none,
        clusters_count := some 0, resource_pools_count := some 0, vms_count := some 0 } :=
  ⟨rfl, rfl, fun _ => rfl, rfl⟩

/-- The single cluster with identifier c1 and display name Prod. -/
def prodCluster : Cluster := { cluster_id := "c1", name := "Prod", resource_pools := none }

/-- C2 counterexample: the cluster-list formatter applied to the empty list
does not return the string No clusters found in vCenter. -/
theorem c2_empty_format_counterexample :
    MCPToolsView.format_cluster_list [] ≠ "No clusters found in vCenter" := by
  decide

/-- C2 amended: format_cluster_list applied to the empty list returns exactly
No clusters found (without the in-vCenter suffix); the list_clusters tool
body is what returns No clusters found in vCenter on an empty listing; and
applied to the single cluster with id c1 and name Prod the formatter returns
exactly the claimed string. -/
theorem c2_cluster_formatting :
    MCPToolsView.format_cluster_list [] = "No clusters found" ∧
    MCPToolsView.list_clusters_tool emptyApi = "No clusters found in vCenter" ∧
    MCPToolsView.format_cluster_list [prodCluster] =
      "Clusters in vCenter:\n- Prod (ID: c1)\n" :=
  ⟨rfl, rfl, rfl⟩

/-- An environment whose host variable carries a trailing slash and whose
optional variables are unset. -/
def envSlashHost : Env :=
  { vcenter_host := some "https://vc/", vcenter_username := some "admin",
    vcenter_password := some "secret", vcenter_verify_ssl := none,
    vcenter_timeout := none, vcap_services := none }

/-- C3 counterexample: resolving with VCENTER_HOST set to https slash-vc
slash yields a config whose host still carries the trailing slash, not the
stripped form the claim states. -/
theorem c3_config_host_counterexample :
    (ConfigManager.get_vcenter_config envSlashHost).map VCenterConfig.host ≠
      Except.ok "https://vc" ∧
    (ConfigManager.get_vcenter_config envSlashHost).map VCenterConfig.host =
      Except.ok "https://vc/" := by
  constructor
  · intro h
    have h2 : (ConfigManager.get_vcenter_config envSlashHost).map VCenterConfig.host =
        Except.ok "https://vc/" := rfl
    rw [h2] at h
    have h3 : "https://vc/" = "https://vc" := by injection h
    exact absurd h3 (by decide)
  · rfl

/-- Helper: the head of a dropWhile result never satisfies the predicate. -/
theorem head?_dropWhile_not {α : Type} (p : α → Bool) :
    ∀ (l : List α) (a : α), (l.dropWhile p).head? = some a → p a = false := by
  intro l
  induction l with
  | nil => intro a h; simp [List.dropWhile] at h
  | cons x xs ih =>
      intro a h
      cases hpx : p x with
      | true => simp only [List.dropWhile, hpx] at h; exact ih a h
      | false =>
          simp only [List.dropWhile, hpx, List.head?_cons, Option.some.injEq] at h
          rw [← h]; exact hpx

/-- Helper: a takeWhile of the slash test produces only slashes, hence a
replicate of its own length. -/
theorem takeWhile_slash_eq_replicate :
    ∀ l : List Char, l.takeWhile (fun c => c == '/') =
      List.replicate (l.takeWhile (fun c => c == '/')).length '/' := by
  intro l
  induction l with
  | nil => rfl
  | cons x xs ih =>
      cases hpx : (x == '/') with
      | true =>
          have hx : x = '/' := by simpa using hpx
          subst hx
          simp only [List.takeWhile_cons, hpx, if_true, List.length_cons,
            List.replicate_succ]
          exact congrArg (fun t => '/' :: t) ih
      | false =>
          simp only [List.takeWhile_cons, hpx]
          rfl

/-- C3 amended: the ConnectionConfig host keeps whatever trailing slashes the
credential source supplied; the stripping happens in the API client, whose
request host (self.host) is the config host with every trailing slash
removed: it never ends in a slash, and the config host is exactly the request
host followed by some run of slashes. -/
theorem c3_service_host_strips_slash (cfg : VCenterConfig) :
    (VCenterService.host cfg).toList.getLast? ≠ some '/' ∧
    ∃ k, cfg.host.toList = (VCenterService.host cfg).toList ++ List.replicate k '/' := by
  constructor
  · intro h
    have hhead : ((cfg.host.data.reverse.dropWhile (fun c => c == '/')).reverse).getLast? =
        some '/' := h
    rw [List.getLast?_reverse] at hhead
    have := head?_dropWhile_not (fun c => c == '/') (cfg.host.data.reverse) '/' hhead
    simp at this
  · refine ⟨(cfg.host.data.reverse.takeWhile (fun c => c == '/')).length, ?_⟩
    have h1 : (cfg.host.data.reverse.takeWhile (fun c => c == '/') ++
        cfg.host.data.reverse.dropWhile (fun c => c == '/')).reverse =
        cfg.host.data.reverse.reverse := by
      rw [List.takeWhile_append_dropWhile]
    rw [List.reverse_append, List.reverse_reverse] at h1
    have h2 : (cfg.host.data.reverse.takeWhile (fun c => c == '/')).reverse =
        List.replicate (cfg.host.data.reverse.takeWhile (fun c => c == '/')).length '/' := by
      rw [takeWhile_slash_eq_replicate (cfg.host.data.reverse)]
      rw [List.reverse_replicate, List.length_replicate]
    rw [h2] at h1
    exact h1.symm

/-- A concrete configuration whose host carries one trailing slash. -/
def exampleSlashConfig : VCenterConfig :=
  { host := "https://vc/", username := "admin", password := "secret",
    verify_ssl := true, timeout := 30 }

/-- C3 witness: the amended statement instantiated at a concrete config. -/
theorem c3_service_host_strips_slash_witness :
    (VCenterService.host exampleSlashConfig).toList.getLast? ≠ some '/' ∧
    ∃ k, exampleSlashConfig.host.toList =
      (VCenterService.host exampleSlashConfig).toList ++ List.replicate k '/' :=
  c3_service_host_strips_slash exampleSlashConfig

/-- Helper: shape of a successful configuration resolution: the ok config is
built from the resolved credentials, the lowercased verify flag comparison
and the parsed timeout with its fallback. -/
theorem get_vcenter_config_ok_shape (env : Env) (cfg : VCenterConfig)
    (h : ConfigManager.get_vcenter_config env = Except.ok cfg) :
    ∃ credentials, ConfigManager.get_vcenter_credentials env = Except.ok credentials ∧
      cfg = { host := credentials.host, username := credentials.username,
              password := credentials.password,
              verify_ssl := pyLower (env.vcenter_verify_ssl.getD "true") != "false",
              timeout := (pyInt (env.vcenter_timeout.getD "30")).getD 30 } := by
  unfold ConfigManager.get_vcenter_config at h
  cases hc : ConfigManager.get_vcenter_credentials env with
  | error e => rw [hc] at h; exact absurd h (by simp)
  | ok credentials =>
      rw [hc] at h
      simp only [Except.ok.injEq] at h
      exact ⟨credentials, rfl, h.symm⟩

/-- An environment whose verify-ssl variable is the uppercase string FALSE. -/
def envUpperFalseSsl : Env :=
  { vcenter_host := some "https://vc", vcenter_username := some "admin",
    vcenter_password := some "secret", vcenter_verify_ssl := some "FALSE",
    vcenter_timeout := none, vcap_services := none }

/-- C4 counterexample: the value FALSE differs from the string false, yet it
resolves the verify flag to false, because the code lowercases the variable
before comparing, contradicting the claim that every value other than false
yields true. -/
theorem c4_verify_ssl_counterexample :
    ("FALSE" : String) ≠ "false" ∧
    (ConfigManager.get_vcenter_config envUpperFalseSsl).map VCenterConfig.verify_ssl =
      Except.ok false :=
  ⟨by decide, rfl⟩

/-- C4 amended: the resolved verify flag is false exactly when the lowercased
value of VCENTER_VERIFY_SSL (defaulting to true when unset) is the string
false; every value that does not lowercase to false, including the unset
case, yields true. -/
theorem c4_verify_ssl_lowercase (env : Env) (cfg : VCenterConfig)
    (h : ConfigManager.get_vcenter_config env = Except.ok cfg) :
    cfg.verify_ssl = false ↔ pyLower (env.vcenter_verify_ssl.getD "true") = "false" := by
  obtain ⟨credentials, -, hcfg⟩ := get_vcenter_config_ok_shape env cfg h
  subst hcfg
  simp [bne]

/-- The configuration resolved from envUpperFalseSsl. -/
def upperFalseSslConfig : VCenterConfig :=
  { host := "https://vc", username := "admin", password := "secret",
    verify_ssl := false, timeout := 30 }

/-- C4 witness: the amended statement instantiated at the FALSE environment. -/
theorem c4_verify_ssl_lowercase_witness :
    (upperFalseSslConfig.verify_ssl = false ↔
      pyLower (envUpperFalseSsl.vcenter_verify_ssl.getD "true") = "false") :=
  c4_verify_ssl_lowercase envUpperFalseSsl upperFalseSslConfig rfl

/-- An environment whose timeout variable is the string minus five. -/
def envNegativeTimeout : Env :=
  { vcenter_host := some "https://vc", vcenter_username := some "admin",
    vcenter_password := some "secret", vcenter_verify_ssl := none,
    vcenter_timeout := some "-5", vcap_services := none }

/-- C5 counterexample: with VCENTER_TIMEOUT set to minus five, resolution
succeeds and the resolved timeout is the negative integer minus five, so the
resolved timeout is not always a positive integer. -/
theorem c5_timeout_counterexample :
    (ConfigManager.get_vcenter_config envNegativeTimeout).map VCenterConfig.timeout =
      Except.ok (-5) ∧ ¬ (0 < (-5 : Int)) :=
  ⟨rfl, by decide⟩

/-- C5 amended: resolution never fails because of the timeout field (whenever
credentials resolve, the whole config resolves); the resolved timeout is the
Python int parse of the variable, defaulting to the string 30 when unset and
falling back to 30 when the parse fails (in particular the malformed value
invalid gives 30); but the parsed value is taken as-is, so it may be zero or
negative -- there is no positivity check. -/
theorem c5_timeout_fallback (env : Env) (cfg : VCenterConfig)
    (h : ConfigManager.get_vcenter_config env = Except.ok cfg) :
    cfg.timeout = (pyInt (env.vcenter_timeout.getD "30")).getD 30 ∧
    (pyInt (env.vcenter_timeout.getD "30") = none → cfg.timeout = 30) ∧
    (env.vcenter_timeout = none → cfg.timeout = 30) ∧
    (env.vcenter_timeout = some "invalid" → cfg.timeout = 30) ∧
    (∀ env2 : Env, ∀ credentials2 : VCenterCredentials,
      ConfigManager.get_vcenter_credentials env2 = Except.ok credentials2 →
      ∃ cfg2, ConfigManager.get_vcenter_config env2 = Except.ok cfg2) := by
  obtain ⟨credentials, -, hcfg⟩ := get_vcenter_config_ok_shape env cfg h
  subst hcfg
  refine ⟨rfl, ?_, ?_, ?_, ?_⟩
  · intro hnone
    simp [hnone]
  · intro hunset
    rw [hunset]
    rfl
  · intro hinvalid
    rw [hinvalid]
    rfl
  · intro env2 credentials2 hcred2
    unfold ConfigManager.get_vcenter_config
    rw [hcred2]
    exact ⟨_, rfl⟩

/-- An environment whose timeout variable is the malformed string invalid. -/
def envInvalidTimeout : Env :=
  { vcenter_host := some "https://vc", vcenter_username := some "admin",
    vcenter_password := some "secret", vcenter_verify_ssl := none,
    vcenter_timeout := some "invalid", vcap_services := none }

/-- The configuration resolved from envInvalidTimeout. -/
def invalidTimeoutConfig : VCenterConfig :=
  { host := "https://vc", username := "admin", password := "secret",
    verify_ssl := true, timeout := 30 }

/-- C5 witness: the amended statement instantiated at the invalid-timeout
environment gives the fallback 30. -/
theorem c5_timeout_fallback_witness : invalidTimeoutConfig.timeout = 30 :=
  (c5_timeout_fallback envInvalidTimeout invalidTimeoutConfig rfl).2.2.2.1 rfl

/-- Helper: the unfiltered resource-pool fetch issues exactly one remote
call, the unfiltered resource-pool listing request. -/
theorem get_resource_pools_unfiltered_calls (api : VCenterApi) :
    (VCenterService.get_resource_pools api none).2 = [ApiCall.resource_pools none] := by
  cases h : api.resource_pool_response none with
  | ok response => simp [VCenterService.get_resource_pools, pyTruthyStr, h]
  | error e => simp [VCenterService.get_resource_pools, pyTruthyStr, h]

/-- Helper: when no raw record in the unfiltered listing bears the queried
name, the pool lookup returns none together with the single listing call. -/
theorem get_resource_pool_by_name_not_found (api : VCenterApi) (resource_pool_name : String)
    (h : ((VCenterService.get_resource_pools api none).1).find?
        (fun raw => raw.name == some resource_pool_name) = none) :
    VCenterController.get_resource_pool_by_name api resource_pool_name =
      (none, (VCenterService.get_resource_pools api none).2) := by
  unfold VCenterController.get_resource_pool_by_name
  simp only [h]

/-- C6: for a pool name matching no raw record of the unfiltered
resource-pool listing, get_vms_in_resource_pool returns the empty VM list,
and its complete remote call trace is the single unfiltered resource-pool
listing request issued by the pool-name resolution: no VM fetch is issued. -/
theorem c6_no_vm_fetch_for_missing_pool (api : VCenterApi) (resource_pool_name : String)
    (h : ∀ raw ∈ (VCenterService.get_resource_pools api none).1,
        raw.name ≠ some resource_pool_name) :
    VCenterController.get_vms_in_resource_pool api resource_pool_name =
      ([], [ApiCall.resource_pools none]) := by
  have hfind : ((VCenterService.get_resource_pools api none).1).find?
      (fun raw => raw.name == some resource_pool_name) = none := by
    rw [List.find?_eq_none]
    intro raw hmem
    simpa using h raw hmem
  have hpool := get_resource_pool_by_name_not_found api resource_pool_name hfind
  unfold VCenterController.get_vms_in_resource_pool
  simp only [hpool, get_resource_pools_unfiltered_calls]

/-- A remote API with one cluster named Prod, one pool named Pool A and one
powered-on VM, all succeeding. -/
def inventoryApi : VCenterApi :=
  { cluster_response := .ok { value := some [{ cluster := some "c1", name := some "Prod" }] },
    resource_pool_response := fun _ =>
      .ok { value := some [{ resource_pool := some "rp-1", name := some "Pool A" }] },
    vm_response := fun _ _ =>
      .ok { value := some [{ vm := some "vm-1", name := some "VM One",
                             power_state := some "POWERED_ON" }] } }

/-- C6 witness: querying a pool name absent from the listing returns the
empty list with only the pool-resolution call in the trace, although the VM
endpoint of this API would return a VM if it were called. -/
theorem c6_no_vm_fetch_for_missing_pool_witness :
    VCenterController.get_vms_in_resource_pool inventoryApi "ghost" =
      ([], [ApiCall.resource_pools none]) :=
  c6_no_vm_fetch_for_missing_pool inventoryApi "ghost" (by decide)

/-- Helper: a linear find is the head of the filtered list. -/
theorem find?_eq_head?_filter {α : Type} (p : α → Bool) :
    ∀ l : List α, l.find? p = (l.filter p).head? := by
  intro l
  induction l with
  | nil => rfl
  | cons x xs ih =>
      cases hpx : p x with
      | true =>
          rw [List.find?_cons_of_pos xs hpx, List.filter_cons_of_pos hpx, List.head?_cons]
      | false =>
          rw [List.find?_cons_of_neg xs (by simp [hpx]),
            List.filter_cons_of_neg (by simp [hpx]), ih]

/-- C7: findClusterByName is the linear scan of the mapped cluster listing
under exact string equality on the name: its result is the first cluster of
the listing whose name equals the query (the head of the filtered listing),
and it is none exactly when no cluster of the listing bears the queried
name. -/
theorem c7_find_cluster_first_exact (api : VCenterApi) (cluster_name : String) :
    (VCenterController.get_cluster_by_name api cluster_name).1 =
      (((VCenterController.get_clusters api).1).filter
        (fun cluster => cluster.name == cluster_name)).head? ∧
    ((VCenterController.get_cluster_by_name api cluster_name).1 = none ↔
      ∀ cluster ∈ (VCenterController.get_clusters api).1, cluster.name ≠ cluster_name) := by
  constructor
  · unfold VCenterController.get_cluster_by_name
    exact find?_eq_head?_filter _ _
  · unfold VCenterController.get_cluster_by_name
    rw [List.find?_eq_none]
    constructor
    · intro hall cluster hmem
      simpa using hall cluster hmem
    · intro hall cluster hmem
      simpa using hall cluster hmem

/-- C7 witness: the listing of inventoryApi contains the cluster named Prod,
and the query prod (lowercase) finds nothing: matching is case-sensitive. -/
theorem c7_find_cluster_first_exact_witness :
    (VCenterController.get_cluster_by_name inventoryApi "prod").1 = none :=
  (c7_find_cluster_first_exact inventoryApi "prod").2.mpr (by decide)

/-- C8: when the three VCENTER_* credential variables are all set and
non-empty, credential resolution returns exactly that triple -- whatever
VCAP_SERVICES also holds, since the environment source short-circuits -- and
when the two optional variables are additionally unset the resolved config
is that triple with verify_ssl true and timeout 30. -/
theorem c8_env_triple_priority (env : Env) (host username password : String)
    (hh : env.vcenter_host = some host) (hh2 : host ≠ "")
    (hu : env.vcenter_username = some username) (hu2 : username ≠ "")
    (hp : env.vcenter_password = some password) (hp2 : password ≠ "") :
    ConfigManager.get_vcenter_credentials env =
      Except.ok { host := host, username := username, password := password } ∧
    (env.vcenter_verify_ssl = none → env.vcenter_timeout = none →
      ConfigManager.get_vcenter_config env =
        Except.ok { host := host, username := username, password := password,
                    verify_ssl := true, timeout := 30 }) := by
  have hcred : ConfigManager.get_credentials_from_env env =
      some { host := host, username := username, password := password } := by
    unfold ConfigManager.get_credentials_from_env
    rw [hh, hu, hp]
    simp [pyTruthyStr, hh2, hu2, hp2]
  have hcreds : ConfigManager.get_vcenter_credentials env =
      Except.ok { host := host, username := username, password := password } := by
    unfold ConfigManager.get_vcenter_credentials
    rw [hcred]
  refine ⟨hcreds, ?_⟩
  intro hssl htimeout
  unfold ConfigManager.get_vcenter_config
  rw [hcreds, hssl, htimeout]
  rfl

/-- An environment with a complete VCENTER_* triple and a competing complete
vCenter service binding, with the optional variables unset. -/
def competingBindingEnv : Env :=
  { vcenter_host := some "https://envhost", vcenter_username := some "envuser",
    vcenter_password := some "envpass", vcenter_verify_ssl := none,
    vcenter_timeout := none,
    vcap_services := some (VcapServicesValue.parsed
      [("vcenter", [{ name := some "my-vcenter", label := some "vcenter",
                      credentials := some { host := some "https://bindhost",
                                            username := some "binduser",
                                            password := some "bindpass" } }])]) }

/-- C8 witness: the environment triple wins over the competing service
binding and the defaults apply. -/
theorem c8_env_triple_priority_witness :
    ConfigManager.get_vcenter_config competingBindingEnv =
      Except.ok { host := "https://envhost", username := "envuser", password := "envpass",
                  verify_ssl := true, timeout := 30 } :=
  (c8_env_triple_priority competingBindingEnv "https://envhost" "envuser" "envpass"
    rfl (by decide) rfl (by decide) rfl (by decide)).2 rfl rfl

/-- A descriptor is selected by the service-binding scan when it
keyword-matches and its three credential fields are all truthy, that is
present and non-empty (the all([host, username, password]) check). -/
def bindingSelectable (service : ServiceDesc) : Bool :=
  ConfigManager.is_vcenter_service service &&
    (pyTruthyStr (service.credentials.getD emptyServiceCredentials).host &&
     pyTruthyStr (service.credentials.getD emptyServiceCredentials).username &&
     pyTruthyStr (service.credentials.getD emptyServiceCredentials).password)

/-- Credentials extracted from a selected descriptor. -/
def bindingCredentials (service : ServiceDesc) : VCenterCredentials :=
  { host := (service.credentials.getD emptyServiceCredentials).host.getD "",
    username := (service.credentials.getD emptyServiceCredentials).username.getD "",
    password := (service.credentials.getD emptyServiceCredentials).password.getD "" }

/-- Helper: the inner bucket scan is the first selectable descriptor. -/
theorem scan_service_list_eq_find (l : List ServiceDesc) :
    ConfigManager.scan_service_list l =
      (l.find? bindingSelectable).map bindingCredentials := by
  induction l with
  | nil => rfl
  | cons service rest ih =>
      unfold ConfigManager.scan_service_list
      cases hv : ConfigManager.is_vcenter_service service with
      | false =>
          have hsel : bindingSelectable service = false := by
            simp [bindingSelectable, hv]
          rw [if_neg (by simp [hv]), List.find?_cons_of_neg rest (by simp [hsel]), ih]
      | true =>
          cases ht : (pyTruthyStr (service.credentials.getD emptyServiceCredentials).host &&
              pyTruthyStr (service.credentials.getD emptyServiceCredentials).username &&
              pyTruthyStr (service.credentials.getD emptyServiceCredentials).password) with
          | true =>
              have hsel : bindingSelectable service = true := by
                simp only [bindingSelectable, hv, Bool.true_and]
                exact ht
              rw [if_pos (by simp [hv]), if_pos (by simpa using ht),
                List.find?_cons_of_pos rest hsel]
              rfl
          | false =>
              have hsel : bindingSelectable service = false := by
                simp only [bindingSelectable, hv, Bool.true_and]
                exact ht
              rw [if_pos (by simp [hv]), if_neg (by simpa using ht),
                List.find?_cons_of_neg rest (by simp [hsel]), ih]

/-- Helper: the full bucket-by-bucket scan is the first selectable
descriptor across the concatenation of all buckets in iteration order. -/
theorem scan_services_eq_find (services : List (String × List ServiceDesc)) :
    ConfigManager.scan_services services =
      (((services.map Prod.snd).flatten).find? bindingSelectable).map bindingCredentials := by
  induction services with
  | nil => rfl
  | cons bucket rest ih =>
      obtain ⟨tag, service_list⟩ := bucket
      unfold ConfigManager.scan_services
      rw [scan_service_list_eq_find]
      cases hf : service_list.find? bindingSelectable with
      | some credentials =>
          simp [List.find?_append, hf]
      | none =>
          simp [List.find?_append, hf, ih]

/-- A keyword-matching descriptor whose credentials object has all three
fields present but an empty host string. -/
def presentButEmptyHostDesc : ServiceDesc :=
  { name := some "my-vcenter", label := some "vcenter",
    credentials := some { host := some "", username := some "u", password := some "p" } }

/-- An environment whose only credential source is a binding holding just
presentButEmptyHostDesc. -/
def envPresentButEmptyHost : Env :=
  { vcenter_host := none, vcenter_username := none, vcenter_password := none,
    vcenter_verify_ssl := none, vcenter_timeout := none,
    vcap_services := some (VcapServicesValue.parsed
      [("vcenter", [presentButEmptyHostDesc])]) }

/-- C9 counterexample: a keyword-matching descriptor whose credentials
object has all three fields present -- but with an empty host string -- is
skipped by the scan, which therefore returns None even though a
keyword-matching descriptor with all three credential fields present
exists, contradicting the presence-only reading of the claim. -/
theorem c9_present_fields_counterexample :
    ConfigManager.is_vcenter_service presentButEmptyHostDesc = true ∧
    presentButEmptyHostDesc.credentials =
      some { host := some "", username := some "u", password := some "p" } ∧
    ConfigManager.get_credentials_from_service_binding envPresentButEmptyHost = none :=
  ⟨by decide, rfl, rfl⟩

/-- C9 amended: for a parsed VCAP_SERVICES document, binding resolution
returns the credentials of the first descriptor -- in iteration order across
all service-type buckets -- that keyword-matches and whose host, username
and password are all present and non-empty, and returns None exactly when no
such descriptor exists; a keyword-matching descriptor failing the credential
test (a field missing or empty) is skipped and scanning continues. -/
theorem c9_binding_scan_first_match (env : Env)
    (services : List (String × List ServiceDesc))
    (h : env.vcap_services = some (VcapServicesValue.parsed services)) :
    ConfigManager.get_credentials_from_service_binding env =
      (((services.map Prod.snd).flatten).find? bindingSelectable).map bindingCredentials ∧
    (ConfigManager.get_credentials_from_service_binding env = none ↔
      ∀ service ∈ (services.map Prod.snd).flatten, bindingSelectable service = false) := by
  have hbase : ConfigManager.get_credentials_from_service_binding env =
      ConfigManager.scan_services services := by
    unfold ConfigManager.get_credentials_from_service_binding
    rw [h]
  constructor
  · rw [hbase, scan_services_eq_find]
  · rw [hbase, scan_services_eq_find, Option.map_eq_none', List.find?_eq_none]
    constructor
    · intro hall service hmem
      simpa using hall service hmem
    · intro hall service hmem
      simpa using hall service hmem

/-- The bucket list of an environment where a non-matching mysql descriptor
and an incomplete vCenter descriptor precede a complete vCenter one. -/
def skipThenMatchServices : List (String × List ServiceDesc) :=
  [("mysql", [{ name := some "orders-db", label := some "mysql",
                credentials := some { host := some "https://db",
                                      username := some "dbu", password := some "dbp" } }]),
   ("vcenter", [{ name := some "broken-vcenter", label := some "vcenter",
                  credentials := some { host := some "https://old", username := some "u1",
                                        password := none } },
                { name := some "good-vcenter", label := some "vcenter",
                  credentials := some { host := some "https://bindhost",
                                        username := some "binduser",
                                        password := some "bindpass" } }])]

/-- An environment whose only credential source is skipThenMatchServices. -/
def skipThenMatchEnv : Env :=
  { vcenter_host := none, vcenter_username := none, vcenter_password := none,
    vcenter_verify_ssl := none, vcenter_timeout := none,
    vcap_services := some (VcapServicesValue.parsed skipThenMatchServices) }

/-- C9 witness: the scan skips the non-matching mysql descriptor and the
keyword-matching descriptor missing its password, and returns the
credentials of the later complete descriptor. -/
theorem c9_binding_scan_first_match_witness :
    ConfigManager.get_credentials_from_service_binding skipThenMatchEnv =
      some { host := "https://bindhost", username := "binduser", password := "bindpass" } :=
  ((c9_binding_scan_first_match skipThenMatchEnv skipThenMatchServices rfl).1).trans (by decide)

/-- C10: findResourcePoolByName compares the query against each raw record's
name field directly, so a raw record with no name field matches no query
string: when every record of the unfiltered listing lacks a name the lookup
returns None for every query -- including the query Unknown, which is
exactly what the mapping layer would display for such a record -- and any
pool the lookup does return carries no owning-cluster identifier. -/
theorem c10_raw_name_match_no_cluster (api : VCenterApi) (query : String) :
    (∀ pool, (VCenterController.get_resource_pool_by_name api query).1 = some pool →
      pool.cluster_id = none) ∧
    ((∀ raw ∈ (VCenterService.get_resource_pools api none).1, raw.name = none) →
      (VCenterController.get_resource_pool_by_name api query).1 = none) := by
  constructor
  · intro pool hpool
    unfold VCenterController.get_resource_pool_by_name at hpool
    cases hfind : ((VCenterService.get_resource_pools api none).1).find?
        (fun raw => raw.name == some query) with
    | none =>
        simp only [hfind] at hpool
        exact Option.noConfusion hpool
    | some raw =>
        simp only [hfind] at hpool
        injection hpool with h2
        rw [← h2]
  · intro hall
    have hfind : ((VCenterService.get_resource_pools api none).1).find?
        (fun raw => raw.name == some query) = none := by
      rw [List.find?_eq_none]
      intro raw hmem
      simp [hall raw hmem]
    unfold VCenterController.get_resource_pool_by_name
    simp only [hfind]

/-- A remote API whose single resource-pool record has an identifier but no
name field. -/
def namelessPoolApi : VCenterApi :=
  { cluster_response := .ok { value := some [] },
    resource_pool_response := fun _ =>
      .ok { value := some [{ resource_pool := some "rp-7", name := none }] },
    vm_response := fun _ _ => .ok { value := some [] } }

/-- C10 witness: the record with no name field is not matched even by the
query Unknown, the very string the mapping layer would display as its
name. -/
theorem c10_raw_name_match_no_cluster_witness :
    (VCenterController.get_resource_pool_by_name namelessPoolApi "Unknown").1 = none :=
  (c10_raw_name_match_no_cluster namelessPoolApi "Unknown").2 (by decide)
